import Mathlib

/-!
Shallow embedding of the CapCut MCP server dispatch layer, from
`mcp_server.py` (class `CapCutMCPServer`, the stdio adapter
`handle_call_tool`) and `mcp_server_sse.py` (the SSE adapter `call_tool`).

Modelling conventions:
* Python JSON-like values are `PyVal`; ints and floats are both rationals.
* Composer collaborator functions (`add_video_track`, `add_image_impl`, ...,
  `get_or_create_draft`, `save_draft_impl`) and the external
  `TextStyleRange` constructor are a single oracle `Comp` mapping a recorded
  call (callee name plus argument list in source evaluation order) to either
  a returned value or a raised exception.  Quantifying over `Comp`
  quantifies over every collaborator behaviour.
* Fallible Python expressions (`args[k]`, `a - b`, iteration, `**style`)
  return `Except PyExn _`; the `try/except` in `call_tool` is the only
  handler, exactly as in the source.
* Every dispatch function also returns the list of collaborator calls it
  performed, so that "no Composer function is invoked" is a provable
  statement (`trace = []`).
-/

/-- Python value universe visible to the dispatch layer: JSON-like data.
Python ints and floats are both modelled as rationals. -/
inductive PyVal : Type where
  | none : PyVal
  | bool : Bool → PyVal
  | num : ℚ → PyVal
  | str : String → PyVal
  | list : List PyVal → PyVal
  | dict : List (String × PyVal) → PyVal
deriving Repr

/-- Argument mapping: a Python dict with string keys, in insertion order. -/
abbrev PyDict := List (String × PyVal)

/-- Python exceptions reaching the dispatch layer.  `keyError k` models
`KeyError(k)` raised by `args[k]`; `typeError` models a `TypeError` from a
bad operand or a bad `**` expansion; `raised msg tb` models an arbitrary
exception raised inside a collaborator call, carrying its `str()` text and
its formatted traceback. -/
inductive PyExn : Type where
  | keyError : String → PyExn
  | typeError : String → PyExn
  | raised : String → String → PyExn
deriving Repr

/-- Python `str(e)` on an exception; `str(KeyError('k'))` is `"'k'"`. -/
def pyExnStr : PyExn → String
  | .keyError k => "'" ++ k ++ "'"
  | .typeError m => m
  | .raised m _ => m

/-- Model of `traceback.format_exc()` at the catch site; the traceback text
is abstracted as a function of the exception being handled. -/
def pyExnTrace : PyExn → String
  | .keyError k => "Traceback (most recent call last): KeyError: '" ++ k ++ "'"
  | .typeError m => "Traceback (most recent call last): TypeError: " ++ m
  | .raised _ tb => tb

/-- Python truthiness, `bool(v)`. -/
def pyTruthy : PyVal → Bool
  | .none => false
  | .bool b => b
  | .num q => decide (q ≠ 0)
  | .str s => decide (s ≠ "")
  | .list xs => !xs.isEmpty
  | .dict xs => !xs.isEmpty

/-- Python `args.get(k, default)` on an arguments dict. -/
def pyGet (args : PyDict) (k : String) (d : PyVal) : PyVal :=
  match args.lookup k with
  | some v => v
  | Option.none => d

/-- Python `args[k]` on an arguments dict: raises `KeyError(k)` when the key
is absent. -/
def pyGetItem (args : PyDict) (k : String) : Except PyExn PyVal :=
  match args.lookup k with
  | some v => .ok v
  | Option.none => .error (.keyError k)

/-- Numeric view used by Python arithmetic: ints and floats are rationals
and bools coerce to 0/1; every other value is not a number. -/
def pyToNumber : PyVal → Option ℚ
  | .num q => some q
  | .bool b => some (if b then 1 else 0)
  | _ => Option.none

/-- Python binary subtraction `a - b`: defined on numbers, otherwise it
raises a `TypeError`. -/
def pySub (a b : PyVal) : Except PyExn PyVal :=
  match pyToNumber a, pyToNumber b with
  | some x, some y => .ok (.num (x - y))
  | _, _ => .error (.typeError "unsupported operand type(s) for -")

/-- Python iteration `for x in v`: lists yield their elements, strings yield
one-character strings, dicts yield their keys; other values raise
`TypeError`. -/
def pyIter : PyVal → Except PyExn (List PyVal)
  | .list xs => .ok xs
  | .str s => .ok (s.toList.map fun c => .str (String.mk [c]))
  | .dict xs => .ok (xs.map fun kv => .str kv.1)
  | _ => .error (.typeError "object is not iterable")

/-- Record of one invocation of an external collaborator (a Composer entry
point or the `TextStyleRange` constructor): the callee's name and its
argument list in source evaluation order. -/
structure ComposerCall : Type where
  fn : String
  kwargs : List (String × PyVal)
deriving Repr

/-- Behaviour of the external collaborators: each call either returns a
value or raises an exception. -/
abbrev Comp := ComposerCall → Except PyExn PyVal

/-- Registry entry stored by `_create_draft`:
`self.drafts[draft_id] = ...` holds the backing folder returned by
`get_or_create_draft` and the width/height used for the creation. -/
structure DraftSession : Type where
  folder : PyVal
  width : PyVal
  height : PyVal
deriving Repr

/-- Server state: the field `CapCutMCPServer.drafts`, a dict keyed by draft
id strings. -/
structure ServerState : Type where
  drafts : List (String × DraftSession)
deriving Repr

/-- Python dict assignment `d[k] = v`: replace in place when the key exists,
append otherwise. -/
def dictSet (d : List (String × DraftSession)) (k : String) (v : DraftSession) :
    List (String × DraftSession) :=
  match d with
  | [] => [(k, v)]
  | (k0, v0) :: rest =>
      if k0 = k then (k0, v) :: rest else (k0, v0) :: dictSet rest k v

/-- Python membership test `draft_id in self.drafts`: the registry keys are
strings, so a string operand is looked up and any other hashable value
(None, bool, number) is simply not a member; an unhashable operand (list or
dict) makes the test itself raise `TypeError`, exactly as in Python. -/
def registryHas (d : List (String × DraftSession)) (v : PyVal) :
    Except PyExn Bool :=
  match v with
  | .str k => .ok (d.lookup k).isSome
  | .list _ => .error (.typeError "unhashable type: 'list'")
  | .dict _ => .error (.typeError "unhashable type: 'dict'")
  | _ => .ok false

/-- Registry read `self.drafts[draft_id]`; in the source it is evaluated
only after `registryHas` succeeded, so the fallback entry is never
observed. -/
def registryGet (d : List (String × DraftSession)) (v : PyVal) : DraftSession :=
  match v with
  | .str k =>
      match d.lookup k with
      | some sess => sess
      | Option.none => ⟨.none, .none, .none⟩
  | _ => ⟨.none, .none, .none⟩

/-- Shared guard opening every draft-referencing handler:
`if not draft_id or draft_id not in self.drafts`.  The `or` short-circuits,
so a falsy `draft_id` (absent, None, empty, zero, false) never reaches the
membership test; a truthy unhashable `draft_id` makes the membership test
raise, and that exception propagates out of the guard. -/
def invalidDraft (d : List (String × DraftSession)) (args : PyDict) :
    Except PyExn Bool :=
  let draft_id := pyGet args "draft_id" .none
  if !(pyTruthy draft_id) then .ok true
  else
    match registryHas d draft_id with
    | .error e => .error e
    | .ok b => .ok !b

/-- Failure envelope returned by the draft-id guard. -/
def invalidDraftEnv : PyVal :=
  .dict [("success", .bool false), ("error", .str "Invalid draft_id")]

/-- Success envelope of the eight draft-referencing handlers. -/
def successEnv (r : PyVal) : PyVal :=
  .dict [("success", .bool true), ("result", r)]

/-- Failure envelope of the final `else` branch of `call_tool`. -/
def unknownToolEnv (name : String) : PyVal :=
  .dict [("success", .bool false), ("error", .str ("Unknown tool: " ++ name))]

/-- Failure envelope built by the `except Exception` clause of
`call_tool`. -/
def excEnv (e : PyExn) : PyVal :=
  .dict [("success", .bool false), ("error", .str (pyExnStr e)),
    ("traceback", .str (pyExnTrace e))]

/-- Envelope returned when the import guard is down. -/
def capcutUnavailableEnv : PyVal :=
  .dict [("success", .bool false),
    ("error", .str "CapCut modules not available. Please check installation.")]

/-- Import guard `CAPCUT_AVAILABLE`: the embedding models the configuration
in which the CapCut modules imported successfully; the guard test is kept in
`call_tool` exactly as in the source. -/
def CAPCUT_AVAILABLE : Bool := true

/-- Common shape of the eight draft-referencing handlers: run the draft-id
guard, resolve the backing folder, evaluate the keyword arguments in source
order (which may itself raise, and for `add_text` may call collaborators),
then invoke the Composer entry point `fn` and wrap its return value. -/
def assetCall (comp : Comp) (s : ServerState) (args : PyDict) (fn : String)
    (build : PyVal → (Except PyExn (List (String × PyVal))) × List ComposerCall) :
    (Except PyExn PyVal) × List ComposerCall :=
  match invalidDraft s.drafts args with
  | .error e => (.error e, [])
  | .ok true => (.ok invalidDraftEnv, [])
  | .ok false =>
    let folder := (registryGet s.drafts (pyGet args "draft_id" .none)).folder
    let pre := build folder
    match pre.1 with
    | .error e => (.error e, pre.2)
    | .ok kw =>
        let c : ComposerCall := ⟨fn, kw⟩
        ((match comp c with
          | .error e => .error e
          | .ok r => .ok (successEnv r)), pre.2 ++ [c])

/-- Keyword arguments of `add_video_track` as evaluated inside
`_add_video`; `args["video_url"]` is the only raising expression. -/
def addVideoKwargs (folder : PyVal) (args : PyDict) :
    Except PyExn (List (String × PyVal)) :=
  match pyGetItem args "video_url" with
  | .error e => .error e
  | .ok url => .ok [("draft_folder", folder), ("video_url", url),
    ("start", pyGet args "start" (.num 0)),
    ("end", pyGet args "end" .none),
    ("target_start", pyGet args "target_start" (.num 0)),
    ("width", pyGet args "width" (.num 1080)),
    ("height", pyGet args "height" (.num 1920)),
    ("transform_x", pyGet args "transform_x" (.num 0)),
    ("transform_y", pyGet args "transform_y" (.num 0)),
    ("scale_x", pyGet args "scale_x" (.num 1)),
    ("scale_y", pyGet args "scale_y" (.num 1)),
    ("speed", pyGet args "speed" (.num 1.0)),
    ("track_name", pyGet args "track_name" (.str "main")),
    ("volume", pyGet args "volume" (.num 1.0)),
    ("transition", pyGet args "transition" .none),
    ("transition_duration", pyGet args "transition_duration" (.num 0.5)),
    ("mask_type", pyGet args "mask_type" .none),
    ("background_blur", pyGet args "background_blur" .none)]

/-- Handler `_add_video`. -/
def _add_video (comp : Comp) (s : ServerState) (args : PyDict) :
    (Except PyExn PyVal) × List ComposerCall :=
  assetCall comp s args "add_video_track" fun folder => (addVideoKwargs folder args, [])

/-- Keyword arguments of `add_audio_track` as evaluated inside
`_add_audio`. -/
def addAudioKwargs (folder : PyVal) (args : PyDict) :
    Except PyExn (List (String × PyVal)) :=
  match pyGetItem args "audio_url" with
  | .error e => .error e
  | .ok url => .ok [("draft_folder", folder), ("audio_url", url),
    ("start", pyGet args "start" (.num 0)),
    ("end", pyGet args "end" .none),
    ("target_start", pyGet args "target_start" (.num 0)),
    ("volume", pyGet args "volume" (.num 1.0)),
    ("speed", pyGet args "speed" (.num 1.0)),
    ("track_name", pyGet args "track_name" (.str "audio_main")),
    ("width", pyGet args "width" (.num 1080)),
    ("height", pyGet args "height" (.num 1920))]

/-- Handler `_add_audio`. -/
def _add_audio (comp : Comp) (s : ServerState) (args : PyDict) :
    (Except PyExn PyVal) × List ComposerCall :=
  assetCall comp s args "add_audio_track" fun folder => (addAudioKwargs folder args, [])

/-- Keyword arguments of `add_image_impl` as evaluated inside `_add_image`;
note `duration = args.get("end", 3.0) - args.get("start", 0)`. -/
def addImageKwargs (folder : PyVal) (args : PyDict) :
    Except PyExn (List (String × PyVal)) :=
  match pyGetItem args "image_url" with
  | .error e => .error e
  | .ok url =>
  match pySub (pyGet args "end" (.num 3.0)) (pyGet args "start" (.num 0)) with
  | .error e => .error e
  | .ok dur => .ok [("draft_folder", folder), ("image_url", url),
    ("start", pyGet args "start" (.num 0)),
    ("duration", dur),
    ("width", pyGet args "width" (.num 1080)),
    ("height", pyGet args "height" (.num 1920)),
    ("transform_x", pyGet args "transform_x" (.num 0)),
    ("transform_y", pyGet args "transform_y" (.num 0)),
    ("scale_x", pyGet args "scale_x" (.num 1)),
    ("scale_y", pyGet args "scale_y" (.num 1)),
    ("track_name", pyGet args "track_name" (.str "main"))]

/-- Handler `_add_image`. -/
def _add_image (comp : Comp) (s : ServerState) (args : PyDict) :
    (Except PyExn PyVal) × List ComposerCall :=
  assetCall comp s args "add_image_impl" fun folder => (addImageKwargs folder args, [])

/-- TextStyleRange construction loop of `_add_text`:
`for style in args["text_styles"]: text_styles.append(TextStyleRange(**style))`.
Each constructor call goes to the external collaborator and is recorded;
a non-mapping element makes the `**` expansion raise. -/
def buildTextStyles (comp : Comp) : List PyVal →
    (Except PyExn (List PyVal)) × List ComposerCall
  | [] => (.ok [], [])
  | style :: rest =>
      match style with
      | .dict kw =>
          let c : ComposerCall := ⟨"TextStyleRange", kw⟩
          match comp c with
          | .error e => (.error e, [c])
          | .ok v =>
              match buildTextStyles comp rest with
              | (.error e, tr) => (.error e, c :: tr)
              | (.ok vs, tr) => (.ok (v :: vs), c :: tr)
      | _ => (.error (.typeError "argument after ** must be a mapping"), [])

/-- Keyword arguments of `add_text_impl` as evaluated inside `_add_text`,
after the style-preprocessing loop; `text`, `start` and `end` are accessed
with raising subscripts and `duration = args["end"] - args["start"]`. -/
def addTextKwargs (comp : Comp) (folder : PyVal) (args : PyDict) :
    (Except PyExn (List (String × PyVal))) × List ComposerCall :=
  let pre :=
    if (args.lookup "text_styles").isSome then
      match pyIter (pyGet args "text_styles" .none) with
      | .error e => ((.error e : Except PyExn (List PyVal)), ([] : List ComposerCall))
      | .ok styles => buildTextStyles comp styles
    else (.ok [], [])
  match pre.1 with
  | .error e => (.error e, pre.2)
  | .ok styles =>
      let body : Except PyExn (List (String × PyVal)) :=
        match pyGetItem args "text" with
        | .error e => .error e
        | .ok txt =>
        match pyGetItem args "start" with
        | .error e => .error e
        | .ok st =>
        match pyGetItem args "end" with
        | .error e => .error e
        | .ok en =>
        match pySub en st with
        | .error e => .error e
        | .ok dur => .ok [("draft_folder", folder), ("text", txt), ("start", st),
          ("duration", dur),
          ("color", pyGet args "font_color" (.str "#ffffff")),
          ("font_size", pyGet args "font_size" (.num 24)),
          ("track_name", .str "text_main"),
          ("width", pyGet args "width" (.num 1080)),
          ("height", pyGet args "height" (.num 1920)),
          ("text_styles", if styles.isEmpty then .none else .list styles),
          ("shadow_enabled", pyGet args "shadow_enabled" (.bool false)),
          ("shadow_color", pyGet args "shadow_color" (.str "#000000")),
          ("shadow_alpha", pyGet args "shadow_alpha" (.num 0.8)),
          ("shadow_angle", pyGet args "shadow_angle" (.num 315.0)),
          ("shadow_distance", pyGet args "shadow_distance" (.num 5.0)),
          ("shadow_smoothing", pyGet args "shadow_smoothing" (.num 0.0)),
          ("background_color", pyGet args "background_color" .none),
          ("background_alpha", pyGet args "background_alpha" (.num 1.0)),
          ("background_style", pyGet args "background_style" (.num 0)),
          ("background_round_radius", pyGet args "background_round_radius" (.num 0.0))]
      (body, pre.2)

/-- Handler `_add_text`. -/
def _add_text (comp : Comp) (s : ServerState) (args : PyDict) :
    (Except PyExn PyVal) × List ComposerCall :=
  assetCall comp s args "add_text_impl" fun folder => addTextKwargs comp folder args

/-- Keyword arguments of `add_subtitle_impl` as evaluated inside
`_add_subtitle`. -/
def addSubtitleKwargs (folder : PyVal) (args : PyDict) :
    Except PyExn (List (String × PyVal)) :=
  match pyGetItem args "srt_path" with
  | .error e => .error e
  | .ok path => .ok [("draft_folder", folder), ("srt_path", path),
    ("track_name", pyGet args "track_name" (.str "subtitle")),
    ("time_offset", pyGet args "time_offset" (.num 0)),
    ("font", pyGet args "font" .none),
    ("font_size", pyGet args "font_size" (.num 8.0)),
    ("font_color", pyGet args "font_color" (.str "#FFFFFF")),
    ("bold", pyGet args "bold" (.bool false)),
    ("italic", pyGet args "italic" (.bool false)),
    ("underline", pyGet args "underline" (.bool false)),
    ("border_width", pyGet args "border_width" (.num 0.0)),
    ("border_color", pyGet args "border_color" (.str "#000000")),
    ("background_color", pyGet args "background_color" (.str "#000000")),
    ("background_alpha", pyGet args "background_alpha" (.num 0.0)),
    ("transform_x", pyGet args "transform_x" (.num 0.0)),
    ("transform_y", pyGet args "transform_y" (.num (-0.8))),
    ("width", pyGet args "width" (.num 1080)),
    ("height", pyGet args "height" (.num 1920))]

/-- Handler `_add_subtitle`. -/
def _add_subtitle (comp : Comp) (s : ServerState) (args : PyDict) :
    (Except PyExn PyVal) × List ComposerCall :=
  assetCall comp s args "add_subtitle_impl" fun folder => (addSubtitleKwargs folder args, [])

/-- Keyword arguments of `add_effect_impl` as evaluated inside
`_add_effect`; `duration = args.get("end", 3.0) - args.get("start", 0)`. -/
def addEffectKwargs (folder : PyVal) (args : PyDict) :
    Except PyExn (List (String × PyVal)) :=
  match pyGetItem args "effect_type" with
  | .error e => .error e
  | .ok ty =>
  match pySub (pyGet args "end" (.num 3.0)) (pyGet args "start" (.num 0)) with
  | .error e => .error e
  | .ok dur => .ok [("draft_folder", folder), ("effect_type", ty),
    ("start", pyGet args "start" (.num 0)),
    ("duration", dur),
    ("track_name", pyGet args "track_name" (.str "effect_01")),
    ("params", pyGet args "params" (.list [])),
    ("width", pyGet args "width" (.num 1080)),
    ("height", pyGet args "height" (.num 1920))]

/-- Handler `_add_effect`. -/
def _add_effect (comp : Comp) (s : ServerState) (args : PyDict) :
    (Except PyExn PyVal) × List ComposerCall :=
  assetCall comp s args "add_effect_impl" fun folder => (addEffectKwargs folder args, [])

/-- Keyword arguments of `add_sticker_impl` as evaluated inside
`_add_sticker`; `duration = args.get("end", 3.0) - args.get("start", 0)`. -/
def addStickerKwargs (folder : PyVal) (args : PyDict) :
    Except PyExn (List (String × PyVal)) :=
  match pyGetItem args "sticker_url" with
  | .error e => .error e
  | .ok url =>
  match pySub (pyGet args "end" (.num 3.0)) (pyGet args "start" (.num 0)) with
  | .error e => .error e
  | .ok dur => .ok [("draft_folder", folder), ("sticker_url", url),
    ("start", pyGet args "start" (.num 0)),
    ("duration", dur),
    ("width", pyGet args "width" (.num 1080)),
    ("height", pyGet args "height" (.num 1920)),
    ("transform_x", pyGet args "transform_x" (.num 0)),
    ("transform_y", pyGet args "transform_y" (.num 0)),
    ("scale_x", pyGet args "scale_x" (.num 1)),
    ("scale_y", pyGet args "scale_y" (.num 1)),
    ("rotation", pyGet args "rotation" (.num 0)),
    ("track_name", pyGet args "track_name" (.str "sticker_main"))]

/-- Handler `_add_sticker`. -/
def _add_sticker (comp : Comp) (s : ServerState) (args : PyDict) :
    (Except PyExn PyVal) × List ComposerCall :=
  assetCall comp s args "add_sticker_impl" fun folder => (addStickerKwargs folder args, [])

/-- Keyword arguments of `save_draft_impl` as evaluated inside
`_save_draft`. -/
def saveDraftKwargs (folder : PyVal) (args : PyDict) :
    Except PyExn (List (String × PyVal)) :=
  .ok [("draft_folder", folder), ("draft_id", pyGet args "draft_id" .none)]

/-- Handler `_save_draft`. -/
def _save_draft (comp : Comp) (s : ServerState) (args : PyDict) :
    (Except PyExn PyVal) × List ComposerCall :=
  assetCall comp s args "save_draft_impl" fun folder => (saveDraftKwargs folder args, [])

/-- The collaborator call made by `_create_draft` for a given fresh id and
argument set: `get_or_create_draft(draft_id, width, height)` (positional in
the source, recorded here by parameter name). -/
def createCallOf (fresh : String) (args : PyDict) : ComposerCall :=
  ⟨"get_or_create_draft",
    [("draft_id", .str fresh),
     ("width", pyGet args "width" (.num 1080)),
     ("height", pyGet args "height" (.num 1920))]⟩

/-- Handler `_create_draft`; the `uuid.uuid4()` output is supplied as the
`fresh` argument. -/
def _create_draft (comp : Comp) (fresh : String) (s : ServerState) (args : PyDict) :
    (Except PyExn PyVal) × ServerState × List ComposerCall :=
  let width := pyGet args "width" (.num 1080)
  let height := pyGet args "height" (.num 1920)
  let c := createCallOf fresh args
  match comp c with
  | .error e => (.error e, s, [c])
  | .ok folder =>
      (.ok (.dict [("success", .bool true), ("draft_id", .str fresh),
        ("draft_folder", folder), ("width", width), ("height", height)]),
       ⟨dictSet s.drafts fresh ⟨folder, width, height⟩⟩, [c])

/-- Dispatch on the eight draft-referencing tool names (the `elif` chain of
`call_tool` below `create_draft`), ending in the unknown-tool envelope. -/
def toolHandler (comp : Comp) (s : ServerState) (name : String) (args : PyDict) :
    (Except PyExn PyVal) × List ComposerCall :=
  if name = "add_video" then _add_video comp s args
  else if name = "add_audio" then _add_audio comp s args
  else if name = "add_image" then _add_image comp s args
  else if name = "add_text" then _add_text comp s args
  else if name = "add_subtitle" then _add_subtitle comp s args
  else if name = "add_effect" then _add_effect comp s args
  else if name = "add_sticker" then _add_sticker comp s args
  else if name = "save_draft" then _save_draft comp s args
  else (.ok (unknownToolEnv name), [])

/-- Body of the `try:` block of `call_tool`: route to the matching handler;
only `_create_draft` can change the server state. -/
def dispatchTool (comp : Comp) (fresh : String) (s : ServerState)
    (name : String) (args : PyDict) :
    (Except PyExn PyVal) × ServerState × List ComposerCall :=
  if name = "create_draft" then _create_draft comp fresh s args
  else ((toolHandler comp s name args).1, s, (toolHandler comp s name args).2)

/-- Method `CapCutMCPServer.call_tool`: the import guard, the dispatch, and
the generic `except Exception` converting any raise into a failure envelope
with `error` and `traceback` fields. -/
def call_tool (comp : Comp) (fresh : String) (s : ServerState)
    (name : String) (args : PyDict) : PyVal × ServerState × List ComposerCall :=
  if !CAPCUT_AVAILABLE then (capcutUnavailableEnv, s, [])
  else
    (match (dispatchTool comp fresh s name args).1 with
     | .ok v => v
     | .error e => excEnv e,
     (dispatchTool comp fresh s name args).2)

/-- Tool catalog entry: the tool name and the schema's `required` list (the
remaining schema property maps in `TOOLS` are static data consumed by no
dispatch logic and are elided from the embedding). -/
structure ToolDecl : Type where
  name : String
  required : List String
deriving Repr

/-- The `TOOLS` catalog of `mcp_server.py`, restricted to names and
required fields. -/
def TOOLS : List ToolDecl :=
  [⟨"create_draft", []⟩,
   ⟨"add_video", ["video_url"]⟩,
   ⟨"add_audio", ["audio_url"]⟩,
   ⟨"add_image", ["image_url"]⟩,
   ⟨"add_text", ["text", "start", "end"]⟩,
   ⟨"add_subtitle", ["srt_path"]⟩,
   ⟨"add_effect", ["effect_type"]⟩,
   ⟨"add_sticker", ["sticker_url"]⟩,
   ⟨"save_draft", ["draft_id"]⟩]

/-- Key lookup inside an envelope value (a dict); `Option.none` when the key
is missing or the value is not a dict. -/
def envGet (v : PyVal) (k : String) : Option PyVal :=
  match v with
  | .dict kvs => kvs.lookup k
  | _ => Option.none

/-- Key list of an envelope value. -/
def envKeys : PyVal → List String
  | .dict kvs => kvs.map Prod.fst
  | _ => []

/-- MCP `types.TextContent(type="text", text=...)` as produced by both
transport adapters. -/
structure TextContent : Type where
  type : String
  text : String
deriving Repr

/-- JSON string escaping used by `jsonDumps` (quote and backslash; control
characters do not occur in the payloads at issue). -/
def jsonEscape (s : String) : String :=
  String.join (s.toList.map fun c =>
    if c = '"' then "\\\"" else if c = '\\' then "\\\\" else String.mk [c])

/-- Quoted JSON string. -/
def jsonQuote (s : String) : String := "\"" ++ jsonEscape s ++ "\""

/-- Rendering of a Python number in JSON output; integer-valued rationals
print as integers, the general float formatting is abstracted as a
numerator/denominator pair. -/
def jsonNum (q : ℚ) : String :=
  if q.den = 1 then toString q.num else toString q.num ++ "/" ++ toString q.den

mutual

/-- Model of `json.dumps(v, ensure_ascii=False)` with the default
separators, over insertion-ordered dicts. -/
def jsonDumps : PyVal → String
  | .none => "null"
  | .bool true => "true"
  | .bool false => "false"
  | .num q => jsonNum q
  | .str s => jsonQuote s
  | .list xs => "[" ++ jsonItems xs ++ "]"
  | .dict xs => "\x7b" ++ jsonPairs xs ++ "\x7d"

/-- Comma-separated serialization of a JSON array body. -/
def jsonItems : List PyVal → String
  | [] => ""
  | [x] => jsonDumps x
  | x :: y :: xs => jsonDumps x ++ ", " ++ jsonItems (y :: xs)

/-- Comma-separated serialization of a JSON object body. -/
def jsonPairs : List (String × PyVal) → String
  | [] => ""
  | [(k, v)] => jsonQuote k ++ ": " ++ jsonDumps v
  | (k, v) :: y :: xs => jsonQuote k ++ ": " ++ jsonDumps v ++ ", " ++ jsonPairs (y :: xs)

end

/-- Normalization `arguments or ...` in the stdio handler: `None` and the
empty dict both become the empty dict. -/
def argsOrEmpty (arguments : Option PyDict) : PyDict :=
  match arguments with
  | Option.none => []
  | some a => if pyTruthy (.dict a) then a else []

/-- Wrapping of a `call_tool` envelope as a one-element `TextContent` list,
shared verbatim by the nine stdio branches and by the SSE handler. -/
def wrapContent (r : PyVal × ServerState × List ComposerCall) :
    (List TextContent) × ServerState :=
  ([⟨"text", jsonDumps r.1⟩], r.2.1)

/-- Stdio adapter handler `handle_call_tool` of `mcp_server.py`: an `elif`
chain over the nine tool names around `server.call_tool(name, arguments or
...)`, with a final unknown-tool branch that bypasses `call_tool` and
serializes a bare error object without a `success` field. -/
def handle_call_tool (comp : Comp) (fresh : String) (s : ServerState)
    (name : String) (arguments : Option PyDict) : (List TextContent) × ServerState :=
  if name = "create_draft" then
    wrapContent (call_tool comp fresh s "create_draft" (argsOrEmpty arguments))
  else if name = "add_video" then
    wrapContent (call_tool comp fresh s "add_video" (argsOrEmpty arguments))
  else if name = "add_audio" then
    wrapContent (call_tool comp fresh s "add_audio" (argsOrEmpty arguments))
  else if name = "add_image" then
    wrapContent (call_tool comp fresh s "add_image" (argsOrEmpty arguments))
  else if name = "add_text" then
    wrapContent (call_tool comp fresh s "add_text" (argsOrEmpty arguments))
  else if name = "add_subtitle" then
    wrapContent (call_tool comp fresh s "add_subtitle" (argsOrEmpty arguments))
  else if name = "add_effect" then
    wrapContent (call_tool comp fresh s "add_effect" (argsOrEmpty arguments))
  else if name = "add_sticker" then
    wrapContent (call_tool comp fresh s "add_sticker" (argsOrEmpty arguments))
  else if name = "save_draft" then
    wrapContent (call_tool comp fresh s "save_draft" (argsOrEmpty arguments))
  else
    ([⟨"text", jsonDumps (.dict [("error", .str ("Unknown tool: " ++ name))])⟩], s)

/-- SSE adapter handler `call_tool` of `mcp_server_sse.py`: delegates every
name directly to `CapCutMCPServer.call_tool` and serializes the envelope. -/
def sse_call_tool (comp : Comp) (fresh : String) (s : ServerState)
    (name : String) (arguments : PyDict) : (List TextContent) × ServerState :=
  wrapContent (call_tool comp fresh s name arguments)

/-- Composer test double that returns a fixed folder value on every call. -/
def compOkFolder : Comp := fun _ => .ok (.str "folderF")

/-- Composer test double that raises on every call. -/
def compBoom : Comp := fun _ => .error (.raised "boom" "tb0")

/-- Registry holding one draft `"d"` created at the default dimensions. -/
def sOne : ServerState := ⟨[("d", ⟨.str "f", .num 1080, .num 1920⟩)]⟩

/-- Two-step concrete run: create a 720x1280 draft, then add a video to it
without passing `width`/`height`. -/
def runCreate720 : PyVal × ServerState × List ComposerCall :=
  call_tool compOkFolder "D1" ⟨[]⟩ "create_draft"
    [("width", .num 720), ("height", .num 1280)]

/-- State after `runCreate720`. -/
def stateAfter720 : ServerState := runCreate720.2.1

/-- Follow-up `add_video` call of the 720x1280 run. -/
def runAddVideo720 : PyVal × ServerState × List ComposerCall :=
  call_tool compOkFolder "D2" stateAfter720 "add_video"
    [("draft_id", .str "D1"), ("video_url", .str "x.mp4")]

/-- Concrete run for the lifecycle claim: create a draft, then save it. -/
def runCreateS1 : PyVal × ServerState × List ComposerCall :=
  call_tool compOkFolder "S1" ⟨[]⟩ "create_draft" []

/-- Successful `save_draft` on the draft created by `runCreateS1`. -/
def runSaveS1 : PyVal × ServerState × List ComposerCall :=
  call_tool compOkFolder "S2" runCreateS1.2.1 "save_draft" [("draft_id", .str "S1")]

section Lemmas

/-- Draft-id guard branch of `assetCall`. -/
theorem assetCall_invalid (comp : Comp) (s : ServerState) (args : PyDict)
    (fn : String)
    (build : PyVal → (Except PyExn (List (String × PyVal))) × List ComposerCall)
    (h : invalidDraft s.drafts args = .ok true) :
    assetCall comp s args fn build = (.ok invalidDraftEnv, []) := by
  simp [assetCall, h]

/-- When the guard's membership test itself raises (truthy unhashable
`draft_id`), `assetCall` propagates that exception with no collaborator
call. -/
theorem assetCall_guard_error (comp : Comp) (s : ServerState) (args : PyDict)
    (fn : String)
    (build : PyVal → (Except PyExn (List (String × PyVal))) × List ComposerCall)
    (e : PyExn) (h : invalidDraft s.drafts args = .error e) :
    assetCall comp s args fn build = (.error e, []) := by
  simp [assetCall, h]

/-- Trace of `assetCall` when the guard passes and the argument build
succeeds: exactly the build's collaborator calls followed by the main
Composer call, whatever the Composer does. -/
theorem assetCall_trace (comp : Comp) (s : ServerState) (args : PyDict)
    (fn : String)
    (build : PyVal → (Except PyExn (List (String × PyVal))) × List ComposerCall)
    (kw : List (String × PyVal)) (tr : List ComposerCall)
    (hinv : invalidDraft s.drafts args = .ok false)
    (hb : build ((registryGet s.drafts (pyGet args "draft_id" .none)).folder)
      = (.ok kw, tr)) :
    (assetCall comp s args fn build).2 = tr ++ [⟨fn, kw⟩] := by
  simp [assetCall, hinv, hb]

/-- Every `ok` outcome of `assetCall` is the invalid-draft envelope or a
success envelope. -/
theorem assetCall_ok_shape (comp : Comp) (s : ServerState) (args : PyDict)
    (fn : String)
    (build : PyVal → (Except PyExn (List (String × PyVal))) × List ComposerCall)
    (v : PyVal) (h : (assetCall comp s args fn build).1 = .ok v) :
    v = invalidDraftEnv ∨ ∃ r, v = successEnv r := by
  unfold assetCall at h
  split at h
  · simp at h
  · simp at h
    exact Or.inl h.symm
  · dsimp only at h
    split at h
    · simp at h
    · split at h
      · simp at h
      · simp at h
        exact Or.inr ⟨_, h.symm⟩

/-- Every `ok` outcome of `toolHandler` is the unknown-tool envelope, the
invalid-draft envelope, or a success envelope. -/
theorem toolHandler_ok_shape (comp : Comp) (s : ServerState) (name : String)
    (args : PyDict) (v : PyVal) (h : (toolHandler comp s name args).1 = .ok v) :
    v = unknownToolEnv name ∨ v = invalidDraftEnv ∨ ∃ r, v = successEnv r := by
  unfold toolHandler at h
  simp only [_add_video, _add_audio, _add_image, _add_text, _add_subtitle,
    _add_effect, _add_sticker, _save_draft] at h
  repeat' split at h
  any_goals exact Or.inr (assetCall_ok_shape _ _ _ _ _ _ h)
  injection h with h
  exact Or.inl h.symm

/-- Success results of `_create_draft` carry `success: true`. -/
theorem create_ok_shape (comp : Comp) (fresh : String) (s : ServerState)
    (args : PyDict) (v : PyVal)
    (h : (_create_draft comp fresh s args).1 = .ok v) :
    envGet v "success" = some (.bool true) := by
  simp only [_create_draft] at h
  cases hc : comp (createCallOf fresh args) <;> rw [hc] at h
  · simp at h
  · simp only [Except.ok.injEq] at h
    rw [← h]
    rfl

/-- The state and trace of `call_tool` are those of the dispatched
handler. -/
theorem call_tool_state (comp : Comp) (fresh : String) (s : ServerState)
    (name : String) (args : PyDict) :
    (call_tool comp fresh s name args).2 = (dispatchTool comp fresh s name args).2 := by
  simp [call_tool, CAPCUT_AVAILABLE]

/-- Dispatch result projection of `call_tool` when no exception is raised. -/
theorem call_tool_of_ok (comp : Comp) (fresh : String) (s : ServerState)
    (name : String) (args : PyDict) (v : PyVal)
    (h : (dispatchTool comp fresh s name args).1 = .ok v) :
    (call_tool comp fresh s name args).1 = v := by
  simp [call_tool, CAPCUT_AVAILABLE, h]

/-- Catch-all projection of `call_tool` when the handler raised. -/
theorem call_tool_of_error (comp : Comp) (fresh : String) (s : ServerState)
    (name : String) (args : PyDict) (e : PyExn)
    (h : (dispatchTool comp fresh s name args).1 = .error e) :
    (call_tool comp fresh s name args).1 = excEnv e := by
  simp [call_tool, CAPCUT_AVAILABLE, h]

/-- Handlers other than `_create_draft` never touch the registry. -/
theorem call_tool_state_of_ne (comp : Comp) (fresh : String) (s : ServerState)
    (name : String) (args : PyDict) (h : name ≠ "create_draft") :
    (call_tool comp fresh s name args).2.1 = s := by
  simp [call_tool, CAPCUT_AVAILABLE, dispatchTool, h]

/-- Trace projection of `call_tool` for the non-create tools. -/
theorem call_tool_trace_of_ne (comp : Comp) (fresh : String) (s : ServerState)
    (name : String) (args : PyDict) (h : name ≠ "create_draft") :
    (call_tool comp fresh s name args).2.2 = (toolHandler comp s name args).2 := by
  simp [call_tool, CAPCUT_AVAILABLE, dispatchTool, h]

/-- When the dispatch raised, the registry is unchanged. -/
theorem dispatch_error_state (comp : Comp) (fresh : String) (s : ServerState)
    (name : String) (args : PyDict) (e : PyExn)
    (h : (dispatchTool comp fresh s name args).1 = .error e) :
    (dispatchTool comp fresh s name args).2.1 = s := by
  by_cases hn : name = "create_draft"
  · subst hn
    simp only [dispatchTool, if_true, reduceIte, _create_draft] at h ⊢
    cases hc : comp (createCallOf fresh args)
    · rfl
    · rw [hc] at h
      exact Except.noConfusion h
  · simp [dispatchTool, hn]

/-- Python dict insertion at a fresh key is an append. -/
theorem dictSet_of_not_mem (d : List (String × DraftSession)) (k : String)
    (v : DraftSession) (h : k ∉ d.map Prod.fst) :
    dictSet d k v = d ++ [(k, v)] := by
  induction d with
  | nil => rfl
  | cons hd tl ih =>
      simp only [List.map_cons, List.mem_cons] at h
      push_neg at h
      obtain ⟨h1, h2⟩ := h
      simp only [dictSet, List.cons_append]
      rw [if_neg (fun he => h1 he.symm), ih h2]

/-- Appending entries after an association list does not change the lookup
of a key that the list already holds. -/
theorem lookup_append_of_mem (d e : List (String × DraftSession)) (k : String)
    (h : k ∈ d.map Prod.fst) :
    List.lookup k (d ++ e) = List.lookup k d := by
  induction d with
  | nil => simp at h
  | cons hd tl ih =>
      rcases hd with ⟨k0, v0⟩
      simp only [List.cons_append, List.lookup]
      by_cases hk : k = k0
      · simp [hk]
      · rw [beq_eq_false_iff_ne.mpr hk]
        simp only [List.map_cons, List.mem_cons] at h
        rcases h with h | h
        · exact absurd h hk
        · exact ih h

/-- Normalization `arguments or ...` is the identity on a present dict. -/
theorem argsOrEmpty_some (a : PyDict) : argsOrEmpty (some a) = a := by
  cases a <;> rfl

/-- With `video_url` present, the `_add_video` argument build succeeds and
its `width`/`height` entries are the caller value or the constant
1080/1920. -/
theorem addVideoKwargs_ok (f : PyVal) (args : PyDict) (u : PyVal)
    (hu : args.lookup "video_url" = some u) :
    ∃ kw, addVideoKwargs f args = .ok kw
      ∧ kw.lookup "width" = some (pyGet args "width" (.num 1080))
      ∧ kw.lookup "height" = some (pyGet args "height" (.num 1920)) := by
  simp only [addVideoKwargs, pyGetItem, hu]
  exact ⟨_, rfl, rfl, rfl⟩

/-- With `audio_url` present, the `_add_audio` argument build succeeds and
its `width`/`height` entries are the caller value or the constant
1080/1920. -/
theorem addAudioKwargs_ok (f : PyVal) (args : PyDict) (u : PyVal)
    (hu : args.lookup "audio_url" = some u) :
    ∃ kw, addAudioKwargs f args = .ok kw
      ∧ kw.lookup "width" = some (pyGet args "width" (.num 1080))
      ∧ kw.lookup "height" = some (pyGet args "height" (.num 1920)) := by
  simp only [addAudioKwargs, pyGetItem, hu]
  exact ⟨_, rfl, rfl, rfl⟩

/-- With `srt_path` present, the `_add_subtitle` argument build succeeds
and its `width`/`height` entries are the caller value or the constant
1080/1920. -/
theorem addSubtitleKwargs_ok (f : PyVal) (args : PyDict) (u : PyVal)
    (hu : args.lookup "srt_path" = some u) :
    ∃ kw, addSubtitleKwargs f args = .ok kw
      ∧ kw.lookup "width" = some (pyGet args "width" (.num 1080))
      ∧ kw.lookup "height" = some (pyGet args "height" (.num 1920)) := by
  simp only [addSubtitleKwargs, pyGetItem, hu]
  exact ⟨_, rfl, rfl, rfl⟩

/-- With `image_url` present and numeric (or defaulted) `start`/`end`, the
`_add_image` argument build succeeds, its `duration` entry is exactly
`end - start`, and its `width`/`height` entries are the caller value or the
constant 1080/1920. -/
theorem addImageKwargs_ok (f : PyVal) (args : PyDict) (u : PyVal) (qs qe : ℚ)
    (hu : args.lookup "image_url" = some u)
    (hstart : pyToNumber (pyGet args "start" (.num 0)) = some qs)
    (hend : pyToNumber (pyGet args "end" (.num 3.0)) = some qe) :
    ∃ kw, addImageKwargs f args = .ok kw
      ∧ kw.lookup "duration" = some (.num (qe - qs))
      ∧ kw.lookup "width" = some (pyGet args "width" (.num 1080))
      ∧ kw.lookup "height" = some (pyGet args "height" (.num 1920)) := by
  simp only [addImageKwargs, pyGetItem, hu, pySub, hstart, hend]
  exact ⟨_, rfl, rfl, rfl, rfl⟩

/-- With `effect_type` present and numeric (or defaulted) `start`/`end`,
the `_add_effect` argument build succeeds, its `duration` entry is exactly
`end - start`, and its `width`/`height` entries are the caller value or the
constant 1080/1920. -/
theorem addEffectKwargs_ok (f : PyVal) (args : PyDict) (u : PyVal) (qs qe : ℚ)
    (hu : args.lookup "effect_type" = some u)
    (hstart : pyToNumber (pyGet args "start" (.num 0)) = some qs)
    (hend : pyToNumber (pyGet args "end" (.num 3.0)) = some qe) :
    ∃ kw, addEffectKwargs f args = .ok kw
      ∧ kw.lookup "duration" = some (.num (qe - qs))
      ∧ kw.lookup "width" = some (pyGet args "width" (.num 1080))
      ∧ kw.lookup "height" = some (pyGet args "height" (.num 1920)) := by
  simp only [addEffectKwargs, pyGetItem, hu, pySub, hstart, hend]
  exact ⟨_, rfl, rfl, rfl, rfl⟩

/-- With `sticker_url` present and numeric (or defaulted) `start`/`end`,
the `_add_sticker` argument build succeeds, its `duration` entry is exactly
`end - start`, and its `width`/`height` entries are the caller value or the
constant 1080/1920. -/
theorem addStickerKwargs_ok (f : PyVal) (args : PyDict) (u : PyVal) (qs qe : ℚ)
    (hu : args.lookup "sticker_url" = some u)
    (hstart : pyToNumber (pyGet args "start" (.num 0)) = some qs)
    (hend : pyToNumber (pyGet args "end" (.num 3.0)) = some qe) :
    ∃ kw, addStickerKwargs f args = .ok kw
      ∧ kw.lookup "duration" = some (.num (qe - qs))
      ∧ kw.lookup "width" = some (pyGet args "width" (.num 1080))
      ∧ kw.lookup "height" = some (pyGet args "height" (.num 1920)) := by
  simp only [addStickerKwargs, pyGetItem, hu, pySub, hstart, hend]
  exact ⟨_, rfl, rfl, rfl, rfl⟩

/-- With no `text_styles` argument and `text`/`start`/`end` present with
numeric `start`/`end`, the `_add_text` argument build succeeds with no
collaborator call, its `duration` entry is exactly `end - start`, and its
`width`/`height` entries are the caller value or the constant 1080/1920. -/
theorem addTextKwargs_ok (comp : Comp) (f : PyVal) (args : PyDict)
    (txt vs ve : PyVal) (qs qe : ℚ)
    (hts : args.lookup "text_styles" = Option.none)
    (htxt : args.lookup "text" = some txt)
    (hvs : args.lookup "start" = some vs)
    (hve : args.lookup "end" = some ve)
    (hqs : pyToNumber vs = some qs)
    (hqe : pyToNumber ve = some qe) :
    ∃ kw, addTextKwargs comp f args = (.ok kw, [])
      ∧ kw.lookup "duration" = some (.num (qe - qs))
      ∧ kw.lookup "width" = some (pyGet args "width" (.num 1080))
      ∧ kw.lookup "height" = some (pyGet args "height" (.num 1920)) := by
  simp only [addTextKwargs, hts, Option.isSome_none, Bool.false_eq_true,
    if_false, pyGetItem, htxt, hvs, hve, pySub, hqs, hqe]
  exact ⟨_, rfl, rfl, rfl, rfl⟩

end Lemmas

/-- Claim C1, counterexample: at tool name `"foo"` — a tool name other than
`create_draft` — with `draft_id` absent from the arguments, `call_tool`
returns the unknown-tool envelope, whose `error` field is not
`"Invalid draft_id"`; so the claim's universal statement over every
non-`create_draft` tool name fails. -/
theorem unknown_tool_not_invalid_draft :
    envGet (call_tool compOkFolder "X1" ⟨[]⟩ "foo" []).1 "error"
        = some (.str "Unknown tool: foo")
    ∧ some (PyVal.str "Unknown tool: foo") ≠ some (PyVal.str "Invalid draft_id") := by
  refine ⟨rfl, ?_⟩
  intro h
  injection h with h1
  injection h1 with h2
  exact absurd h2 (by decide)

/-- Claim C1, amended: for every call whose tool name is one of the eight
catalog tools other than `create_draft`: when the source's guard fires —
`draft_id` absent, falsy, or a hashable value that is not a key of the
drafts registry — `call_tool` returns exactly the `Invalid draft_id`
failure envelope, invokes no Composer function, and leaves the registry
unchanged; when instead `draft_id` is truthy but unhashable (a non-empty
list or dict), the membership test itself raises `TypeError`, and
`call_tool` returns the generic catch-all envelope for that exception —
still with no Composer call and the registry unchanged. -/
theorem invalid_draft_uniform_rejection (comp : Comp) (fresh : String)
    (s : ServerState) (name : String) (args : PyDict)
    (hname : name ∈ ["add_video", "add_audio", "add_image", "add_text",
      "add_subtitle", "add_effect", "add_sticker", "save_draft"]) :
    (invalidDraft s.drafts args = .ok true →
        call_tool comp fresh s name args = (invalidDraftEnv, s, []))
    ∧ ∀ e, invalidDraft s.drafts args = .error e →
        call_tool comp fresh s name args = (excEnv e, s, []) := by
  constructor
  · intro hinv
    fin_cases hname <;>
      simp [call_tool, CAPCUT_AVAILABLE, dispatchTool, toolHandler, _add_video,
        _add_audio, _add_image, _add_text, _add_subtitle, _add_effect,
        _add_sticker, _save_draft, assetCall, hinv]
  · intro e he
    fin_cases hname <;>
      simp [call_tool, CAPCUT_AVAILABLE, dispatchTool, toolHandler, _add_video,
        _add_audio, _add_image, _add_text, _add_subtitle, _add_effect,
        _add_sticker, _save_draft, assetCall, he]

/-- Witness for the amended C1 at concrete inputs: `add_video` on an empty
registry with empty arguments (guard fires), and `add_video` with an
unhashable list `draft_id` (guard raises, catch-all answers). -/
theorem invalid_draft_uniform_rejection_witness :
    call_tool compOkFolder "X2" ⟨[]⟩ "add_video" []
        = (invalidDraftEnv, (⟨[]⟩ : ServerState), [])
    ∧ call_tool compOkFolder "X5" sOne "add_video"
          [("draft_id", .list [.num 1]), ("video_url", .str "x.mp4")]
        = (excEnv (.typeError "unhashable type: 'list'"), sOne, []) :=
  ⟨(invalid_draft_uniform_rejection compOkFolder "X2" ⟨[]⟩ "add_video" []
      (by decide)).1 rfl,
   (invalid_draft_uniform_rejection compOkFolder "X5" sOne "add_video"
      [("draft_id", .list [.num 1]), ("video_url", .str "x.mp4")]
      (by decide)).2 (.typeError "unhashable type: 'list'") rfl⟩

/-- Claim C2: `call_tool` is total — every result is an envelope whose
`success` field is a boolean — and whenever the dispatched handler raised
(any Composer behaviour included), the result is exactly the catch-all
failure envelope carrying the exception's message and traceback, with the
registry unchanged, so the same server value serves subsequent calls. -/
theorem call_tool_total_envelope (comp : Comp) (fresh : String)
    (s : ServerState) (name : String) (args : PyDict) :
    (∃ b, envGet (call_tool comp fresh s name args).1 "success" = some (.bool b))
    ∧ ∀ e, (dispatchTool comp fresh s name args).1 = .error e →
        (call_tool comp fresh s name args).1 = excEnv e
        ∧ (call_tool comp fresh s name args).2.1 = s := by
  constructor
  · cases hd : (dispatchTool comp fresh s name args).1 with
    | error e =>
        refine ⟨false, ?_⟩
        rw [call_tool_of_error comp fresh s name args e hd]
        rfl
    | ok v =>
        rw [call_tool_of_ok comp fresh s name args v hd]
        by_cases hn : name = "create_draft"
        · subst hn
          exact ⟨true, create_ok_shape comp fresh s args v
            (by simpa [dispatchTool] using hd)⟩
        · have hv : (toolHandler comp s name args).1 = .ok v := by
            simpa [dispatchTool, hn] using hd
          rcases toolHandler_ok_shape comp s name args v hv with h | h | ⟨r, h⟩
          · exact ⟨false, by rw [h]; rfl⟩
          · exact ⟨false, by rw [h]; rfl⟩
          · exact ⟨true, by rw [h]; rfl⟩
  · intro e he
    refine ⟨call_tool_of_error comp fresh s name args e he, ?_⟩
    calc (call_tool comp fresh s name args).2.1
        = (dispatchTool comp fresh s name args).2.1 := by
          rw [call_tool_state comp fresh s name args]
      _ = s := dispatch_error_state comp fresh s name args e he

/-- Witness for C2: a Composer that raises on `create_draft` yields exactly
the catch-all envelope, and the empty registry is unchanged. -/
theorem call_tool_total_envelope_witness :
    (call_tool compBoom "W2" ⟨[]⟩ "create_draft" []).1
        = excEnv (.raised "boom" "tb0")
    ∧ (call_tool compBoom "W2" ⟨[]⟩ "create_draft" []).2.1 = (⟨[]⟩ : ServerState) :=
  (call_tool_total_envelope compBoom "W2" ⟨[]⟩ "create_draft" []).2
    (.raised "boom" "tb0") rfl

/-- Claim C6, counterexample: after a successful `create_draft` followed by
a successful `save_draft` on the same draft, the server state (hence every
stored session) is exactly what `create_draft` wrote; sessions hold only
folder/width/height, so no NEW→COMPOSING→SAVED transition is recorded by a
successful save, contradicting the claimed lifecycle mutation. -/
theorem save_leaves_session_unchanged :
    envGet runSaveS1.1 "success" = some (.bool true)
    ∧ runSaveS1.2.1 = runCreateS1.2.1 := ⟨rfl, rfl⟩

/-- Claim C6, amended: a draft session is the record written at
`create_draft` (folder, width, height — no lifecycle field exists), and no
call to any tool other than `create_draft` ever changes the registry, so
sessions are immutable after creation and no state transition occurs. -/
theorem sessions_immutable_after_create (comp : Comp) (fresh : String)
    (s : ServerState) (name : String) (args : PyDict)
    (h : name ≠ "create_draft") :
    (call_tool comp fresh s name args).2.1 = s :=
  call_tool_state_of_ne comp fresh s name args h

/-- Witness for the amended C6: a successful `save_draft` leaves the
registry value untouched. -/
theorem sessions_immutable_after_create_witness :
    (call_tool compOkFolder "W6" sOne "save_draft" [("draft_id", .str "d")]).2.1
      = sOne :=
  sessions_immutable_after_create compOkFolder "W6" sOne "save_draft"
    [("draft_id", .str "d")] (by decide)

/-- Claim C7, counterexample: a successful `add_video` call on a valid
draft returns an envelope with `success: true` and no `draft_id` field,
contradicting the claim that every draft-referencing success envelope
contains `draft_id`. -/
theorem add_success_envelope_lacks_draft_id :
    envGet (call_tool compOkFolder "X7" sOne "add_video"
        [("draft_id", .str "d"), ("video_url", .str "x.mp4")]).1 "success"
      = some (.bool true)
    ∧ envGet (call_tool compOkFolder "X7" sOne "add_video"
        [("draft_id", .str "d"), ("video_url", .str "x.mp4")]).1 "draft_id"
      = Option.none := ⟨rfl, rfl⟩

/-- Claim C7, amended: every success envelope of the eight
draft-referencing tools is exactly `success` plus the Composer's opaque
`result`, and contains no `draft_id` field; only `create_draft`'s envelope
carries `draft_id`. -/
theorem draft_tool_success_envelope_shape (comp : Comp) (fresh : String)
    (s : ServerState) (name : String) (args : PyDict) (v : PyVal)
    (hname : name ∈ ["add_video", "add_audio", "add_image", "add_text",
      "add_subtitle", "add_effect", "add_sticker", "save_draft"])
    (hv : (call_tool comp fresh s name args).1 = v)
    (hsucc : envGet v "success" = some (.bool true)) :
    ∃ r, v = successEnv r ∧ envGet v "draft_id" = Option.none := by
  have hne : name ≠ "create_draft" := by
    intro he
    rw [he] at hname
    exact absurd hname (by decide)
  cases hd : (dispatchTool comp fresh s name args).1 with
  | error e =>
      rw [call_tool_of_error comp fresh s name args e hd] at hv
      rw [← hv] at hsucc
      have h0 : envGet (excEnv e) "success" = some (.bool false) := rfl
      rw [h0] at hsucc
      simp at hsucc
  | ok w =>
      rw [call_tool_of_ok comp fresh s name args w hd] at hv
      subst hv
      have hw : (toolHandler comp s name args).1 = .ok w := by
        simpa [dispatchTool, hne] using hd
      rcases toolHandler_ok_shape comp s name args w hw with h | h | ⟨r, h⟩
      · rw [h] at hsucc
        have h0 : envGet (unknownToolEnv name) "success" = some (.bool false) := rfl
        rw [h0] at hsucc
        simp at hsucc
      · rw [h] at hsucc
        have h0 : envGet invalidDraftEnv "success" = some (.bool false) := rfl
        rw [h0] at hsucc
        simp at hsucc
      · refine ⟨r, h, ?_⟩
        rw [h]
        rfl

/-- Witness for the amended C7: a concrete successful `save_draft`. -/
theorem draft_tool_success_envelope_shape_witness :
    ∃ r, (call_tool compOkFolder "W7" sOne "save_draft"
          [("draft_id", .str "d")]).1 = successEnv r
      ∧ envGet (call_tool compOkFolder "W7" sOne "save_draft"
          [("draft_id", .str "d")]).1 "draft_id" = Option.none :=
  draft_tool_success_envelope_shape compOkFolder "W7" sOne "save_draft"
    [("draft_id", .str "d")] _ (by decide) rfl rfl

/-- Claim C3, counterexample: calling `add_video` on a valid draft without
the required `video_url` yields exactly the generic catch-all envelope for
the uncaught `KeyError` — its key set (`success`, `error`, `traceback`) is
identical to that of a genuine internal fault (a raising Composer), and it
carries a `traceback`; there is no distinct missing-field error shape. -/
theorem missing_field_swallowed_by_catchall :
    (call_tool compOkFolder "X3" sOne "add_video" [("draft_id", .str "d")]).1
        = excEnv (.keyError "video_url")
    ∧ envKeys (call_tool compOkFolder "X3" sOne "add_video"
          [("draft_id", .str "d")]).1
        = envKeys (call_tool compBoom "X4" sOne "add_video"
            [("draft_id", .str "d"), ("video_url", .str "x.mp4")]).1
    ∧ envGet (call_tool compOkFolder "X3" sOne "add_video"
          [("draft_id", .str "d")]).1 "traceback" ≠ Option.none := by
  refine ⟨rfl, rfl, ?_⟩
  have hv : envGet (call_tool compOkFolder "X3" sOne "add_video"
      [("draft_id", .str "d")]).1 "traceback"
      = some (.str (pyExnTrace (.keyError "video_url"))) := rfl
  rw [hv]
  exact Option.some_ne_none _

/-- Claim C3, amended: for each of the seven asset tools, calling it on a
valid draft with its first catalog-required field absent (`video_url`,
`audio_url`, `image_url`, `text`, `srt_path`, `effect_type`,
`sticker_url`; for `add_text` with no `text_styles` argument, since a
present malformed `text_styles` raises its own fault first) returns the
generic catch-all failure envelope for `KeyError(field)` — the `error`
string is the stringified `KeyError`, which does name the missing field,
but the envelope is produced by the same `except Exception` handler as any
internal fault (traceback included) rather than by an explicit
required-field check; no Composer function is invoked and the registry is
unchanged.  (`save_draft`'s required `draft_id` is instead answered by the
`Invalid draft_id` guard.) -/
theorem missing_required_field_keyerror (comp : Comp) (fresh : String)
    (s : ServerState) (name fld : String) (args : PyDict)
    (hnf : (name, fld) ∈ [("add_text", "text"),
      ("add_video", "video_url"), ("add_audio", "audio_url"),
      ("add_image", "image_url"), ("add_subtitle", "srt_path"),
      ("add_effect", "effect_type"), ("add_sticker", "sticker_url")])
    (_hcat : ∃ t ∈ TOOLS, t.name = name ∧ fld ∈ t.required)
    (hts : name = "add_text" → args.lookup "text_styles" = Option.none)
    (hinv : invalidDraft s.drafts args = .ok false)
    (habs : args.lookup fld = Option.none) :
    call_tool comp fresh s name args = (excEnv (.keyError fld), s, []) := by
  fin_cases hnf
  · have hts0 : args.lookup "text_styles" = Option.none := hts rfl
    simp [call_tool, CAPCUT_AVAILABLE, dispatchTool, toolHandler, _add_text,
      assetCall, addTextKwargs, pyGetItem, habs, hinv, hts0]
  all_goals
    simp [call_tool, CAPCUT_AVAILABLE, dispatchTool, toolHandler, _add_video,
      _add_audio, _add_image, _add_subtitle, _add_effect, _add_sticker,
      assetCall, addVideoKwargs, addAudioKwargs, addImageKwargs,
      addSubtitleKwargs, addEffectKwargs, addStickerKwargs, pyGetItem,
      habs, hinv]

/-- Witness for the amended C3: `add_video` without `video_url` on a valid
draft. -/
theorem missing_required_field_keyerror_witness :
    call_tool compOkFolder "W3" sOne "add_video" [("draft_id", .str "d")]
      = (excEnv (.keyError "video_url"), sOne, []) :=
  missing_required_field_keyerror compOkFolder "W3" sOne "add_video"
    "video_url" [("draft_id", .str "d")] (by decide) (by decide)
    (fun h => absurd h (by decide)) rfl rfl

/-- Claim C4: for `add_image`, `add_effect` and `add_sticker` on a valid
draft (required field present, `start`/`end` numeric or defaulted), the
`duration` argument passed to the corresponding Composer function is
exactly `end - start`, with `start` defaulting to 0 and `end` to 3.0 —
including when the difference is zero or negative, since `qs` and `qe`
range over all rationals with no positivity restriction. -/
theorem asset_duration_end_minus_start (comp : Comp) (fresh : String)
    (s : ServerState) (args : PyDict) (name fld impl : String) (qs qe : ℚ)
    (hnf : (name, fld, impl) ∈ [("add_image", "image_url", "add_image_impl"),
      ("add_effect", "effect_type", "add_effect_impl"),
      ("add_sticker", "sticker_url", "add_sticker_impl")])
    (hinv : invalidDraft s.drafts args = .ok false)
    (hfld : (args.lookup fld).isSome = true)
    (hstart : pyToNumber (pyGet args "start" (.num 0)) = some qs)
    (hend : pyToNumber (pyGet args "end" (.num 3.0)) = some qe) :
    ∃ c : ComposerCall, (call_tool comp fresh s name args).2.2 = [c]
      ∧ c.fn = impl ∧ c.kwargs.lookup "duration" = some (.num (qe - qs)) := by
  fin_cases hnf
  · obtain ⟨u, hu⟩ := Option.isSome_iff_exists.mp hfld
    obtain ⟨kw, hkw, hdur, -, -⟩ := addImageKwargs_ok
      ((registryGet s.drafts (pyGet args "draft_id" .none)).folder) args u qs qe
      hu hstart hend
    refine ⟨⟨"add_image_impl", kw⟩, ?_, rfl, hdur⟩
    rw [call_tool_trace_of_ne comp fresh s "add_image" args (by decide)]
    exact assetCall_trace comp s args "add_image_impl"
      (fun folder => (addImageKwargs folder args, [])) kw [] hinv (by simp [hkw])
  · obtain ⟨u, hu⟩ := Option.isSome_iff_exists.mp hfld
    obtain ⟨kw, hkw, hdur, -, -⟩ := addEffectKwargs_ok
      ((registryGet s.drafts (pyGet args "draft_id" .none)).folder) args u qs qe
      hu hstart hend
    refine ⟨⟨"add_effect_impl", kw⟩, ?_, rfl, hdur⟩
    rw [call_tool_trace_of_ne comp fresh s "add_effect" args (by decide)]
    exact assetCall_trace comp s args "add_effect_impl"
      (fun folder => (addEffectKwargs folder args, [])) kw [] hinv (by simp [hkw])
  · obtain ⟨u, hu⟩ := Option.isSome_iff_exists.mp hfld
    obtain ⟨kw, hkw, hdur, -, -⟩ := addStickerKwargs_ok
      ((registryGet s.drafts (pyGet args "draft_id" .none)).folder) args u qs qe
      hu hstart hend
    refine ⟨⟨"add_sticker_impl", kw⟩, ?_, rfl, hdur⟩
    rw [call_tool_trace_of_ne comp fresh s "add_sticker" args (by decide)]
    exact assetCall_trace comp s args "add_sticker_impl"
      (fun folder => (addStickerKwargs folder args, [])) kw [] hinv (by simp [hkw])

/-- Witness for C4: `add_image` on a valid draft with `start`/`end`
omitted; the Composer receives `duration = 3.0 - 0`. -/
theorem asset_duration_end_minus_start_witness :
    ∃ c : ComposerCall,
      (call_tool compOkFolder "W4" sOne "add_image"
        [("draft_id", .str "d"), ("image_url", .str "i.png")]).2.2 = [c]
      ∧ c.fn = "add_image_impl"
      ∧ c.kwargs.lookup "duration" = some (.num ((3.0 : ℚ) - 0)) :=
  asset_duration_end_minus_start compOkFolder "W4" sOne
    [("draft_id", .str "d"), ("image_url", .str "i.png")]
    "add_image" "image_url" "add_image_impl" 0 3.0 (by decide) rfl rfl rfl rfl

/-- Claim C5, counterexample: a draft created with width 720 and height
1280, followed by `add_video` omitting `width`/`height`, passes the
constant 1080 to the Composer rather than the session's captured width
720 — the session value is stored but never read by the asset-add path. -/
theorem session_dimensions_ignored :
    (List.lookup "D1" stateAfter720.drafts).map DraftSession.width
        = some (.num 720)
    ∧ (runAddVideo720.2.2.map fun c => c.kwargs.lookup "width")
        = [some (.num 1080)]
    ∧ PyVal.num 1080 ≠ PyVal.num 720 := by
  refine ⟨rfl, rfl, ?_⟩
  intro h
  injection h with h1
  exact absurd h1 (by norm_num)

/-- Claim C5, amended: for every asset-add call on an existing draft (all
seven asset tools; for `add_text`, stated with no `text_styles` argument,
where `add_text_impl` is the only collaborator call), the `width`/`height`
passed to the Composer is the caller-supplied per-call value when present
and otherwise the fixed catalog constant 1080/1920; the session's
dimensions captured at `create_draft` are never consulted by any asset-add
path. -/
theorem omitted_dimensions_use_constants (comp : Comp) (fresh : String)
    (s : ServerState) (args : PyDict) (name fld : String)
    (hnf : (name, fld) ∈ [("add_text", "text"),
      ("add_video", "video_url"), ("add_audio", "audio_url"),
      ("add_image", "image_url"), ("add_subtitle", "srt_path"),
      ("add_effect", "effect_type"), ("add_sticker", "sticker_url")])
    (hinv : invalidDraft s.drafts args = .ok false)
    (hfld : (args.lookup fld).isSome = true)
    (hnum : name ∈ ["add_image", "add_effect", "add_sticker"] →
      (∃ q, pyToNumber (pyGet args "start" (.num 0)) = some q)
      ∧ ∃ q, pyToNumber (pyGet args "end" (.num 3.0)) = some q)
    (hts : name = "add_text" → args.lookup "text_styles" = Option.none)
    (htse : name = "add_text" → ∃ vs ve qs qe,
      args.lookup "start" = some vs ∧ args.lookup "end" = some ve
      ∧ pyToNumber vs = some qs ∧ pyToNumber ve = some qe) :
    ∃ c : ComposerCall, (call_tool comp fresh s name args).2.2 = [c]
      ∧ c.kwargs.lookup "width" = some (pyGet args "width" (.num 1080))
      ∧ c.kwargs.lookup "height" = some (pyGet args "height" (.num 1920)) := by
  fin_cases hnf
  · obtain ⟨txt, htxt⟩ := Option.isSome_iff_exists.mp hfld
    obtain ⟨vs, ve, qs, qe, hvs, hve, hqs, hqe⟩ := htse rfl
    obtain ⟨kw, hkw, -, hw, hh⟩ := addTextKwargs_ok comp
      ((registryGet s.drafts (pyGet args "draft_id" .none)).folder) args
      txt vs ve qs qe (hts rfl) htxt hvs hve hqs hqe
    refine ⟨⟨"add_text_impl", kw⟩, ?_, hw, hh⟩
    rw [call_tool_trace_of_ne comp fresh s "add_text" args (by decide)]
    exact assetCall_trace comp s args "add_text_impl"
      (fun folder => addTextKwargs comp folder args) kw [] hinv (by simp [hkw])
  · obtain ⟨u, hu⟩ := Option.isSome_iff_exists.mp hfld
    obtain ⟨kw, hkw, hw, hh⟩ := addVideoKwargs_ok
      ((registryGet s.drafts (pyGet args "draft_id" .none)).folder) args u hu
    refine ⟨⟨"add_video_track", kw⟩, ?_, hw, hh⟩
    rw [call_tool_trace_of_ne comp fresh s "add_video" args (by decide)]
    exact assetCall_trace comp s args "add_video_track"
      (fun folder => (addVideoKwargs folder args, [])) kw [] hinv (by simp [hkw])
  · obtain ⟨u, hu⟩ := Option.isSome_iff_exists.mp hfld
    obtain ⟨kw, hkw, hw, hh⟩ := addAudioKwargs_ok
      ((registryGet s.drafts (pyGet args "draft_id" .none)).folder) args u hu
    refine ⟨⟨"add_audio_track", kw⟩, ?_, hw, hh⟩
    rw [call_tool_trace_of_ne comp fresh s "add_audio" args (by decide)]
    exact assetCall_trace comp s args "add_audio_track"
      (fun folder => (addAudioKwargs folder args, [])) kw [] hinv (by simp [hkw])
  · obtain ⟨⟨qs, hstart⟩, ⟨qe, hend⟩⟩ := hnum (by decide)
    obtain ⟨u, hu⟩ := Option.isSome_iff_exists.mp hfld
    obtain ⟨kw, hkw, -, hw, hh⟩ := addImageKwargs_ok
      ((registryGet s.drafts (pyGet args "draft_id" .none)).folder) args u qs qe
      hu hstart hend
    refine ⟨⟨"add_image_impl", kw⟩, ?_, hw, hh⟩
    rw [call_tool_trace_of_ne comp fresh s "add_image" args (by decide)]
    exact assetCall_trace comp s args "add_image_impl"
      (fun folder => (addImageKwargs folder args, [])) kw [] hinv (by simp [hkw])
  · obtain ⟨u, hu⟩ := Option.isSome_iff_exists.mp hfld
    obtain ⟨kw, hkw, hw, hh⟩ := addSubtitleKwargs_ok
      ((registryGet s.drafts (pyGet args "draft_id" .none)).folder) args u hu
    refine ⟨⟨"add_subtitle_impl", kw⟩, ?_, hw, hh⟩
    rw [call_tool_trace_of_ne comp fresh s "add_subtitle" args (by decide)]
    exact assetCall_trace comp s args "add_subtitle_impl"
      (fun folder => (addSubtitleKwargs folder args, [])) kw [] hinv (by simp [hkw])
  · obtain ⟨⟨qs, hstart⟩, ⟨qe, hend⟩⟩ := hnum (by decide)
    obtain ⟨u, hu⟩ := Option.isSome_iff_exists.mp hfld
    obtain ⟨kw, hkw, -, hw, hh⟩ := addEffectKwargs_ok
      ((registryGet s.drafts (pyGet args "draft_id" .none)).folder) args u qs qe
      hu hstart hend
    refine ⟨⟨"add_effect_impl", kw⟩, ?_, hw, hh⟩
    rw [call_tool_trace_of_ne comp fresh s "add_effect" args (by decide)]
    exact assetCall_trace comp s args "add_effect_impl"
      (fun folder => (addEffectKwargs folder args, [])) kw [] hinv (by simp [hkw])
  · obtain ⟨⟨qs, hstart⟩, ⟨qe, hend⟩⟩ := hnum (by decide)
    obtain ⟨u, hu⟩ := Option.isSome_iff_exists.mp hfld
    obtain ⟨kw, hkw, -, hw, hh⟩ := addStickerKwargs_ok
      ((registryGet s.drafts (pyGet args "draft_id" .none)).folder) args u qs qe
      hu hstart hend
    refine ⟨⟨"add_sticker_impl", kw⟩, ?_, hw, hh⟩
    rw [call_tool_trace_of_ne comp fresh s "add_sticker" args (by decide)]
    exact assetCall_trace comp s args "add_sticker_impl"
      (fun folder => (addStickerKwargs folder args, [])) kw [] hinv (by simp [hkw])

/-- Witness for the amended C5: `add_video` on a valid draft with
`width`/`height` omitted. -/
theorem omitted_dimensions_use_constants_witness :
    ∃ c : ComposerCall,
      (call_tool compOkFolder "W5" sOne "add_video"
        [("draft_id", .str "d"), ("video_url", .str "x.mp4")]).2.2 = [c]
      ∧ c.kwargs.lookup "width"
          = some (pyGet [("draft_id", .str "d"), ("video_url", .str "x.mp4")]
              "width" (.num 1080))
      ∧ c.kwargs.lookup "height"
          = some (pyGet [("draft_id", .str "d"), ("video_url", .str "x.mp4")]
              "height" (.num 1920)) :=
  omitted_dimensions_use_constants compOkFolder "W5" sOne
    [("draft_id", .str "d"), ("video_url", .str "x.mp4")] "add_video"
    "video_url" (by decide) rfl rfl
    (fun h => absurd h (by decide))
    (fun h => absurd h (by decide))
    (fun h => absurd h (by decide))

/-- Claim C8: `create_draft` is atomic with respect to the registry: when
`get_or_create_draft` raises, `call_tool` returns the catch-all failure
envelope and no entry is inserted (the registry is unchanged); when it
returns a folder and the generated id is fresh (as a uuid4 is), exactly
one new entry is appended under that id and the call succeeds. -/
theorem create_draft_atomicity (comp : Comp) (fresh : String)
    (s : ServerState) (args : PyDict) :
    (∀ e, comp (createCallOf fresh args) = .error e →
        call_tool comp fresh s "create_draft" args
          = (excEnv e, s, [createCallOf fresh args]))
    ∧ ∀ folder, comp (createCallOf fresh args) = .ok folder →
        fresh ∉ s.drafts.map Prod.fst →
        (call_tool comp fresh s "create_draft" args).2.1.drafts
            = s.drafts ++ [(fresh, ⟨folder, pyGet args "width" (.num 1080),
                pyGet args "height" (.num 1920)⟩)]
          ∧ envGet (call_tool comp fresh s "create_draft" args).1 "success"
            = some (.bool true) := by
  constructor
  · intro e he
    simp [call_tool, CAPCUT_AVAILABLE, dispatchTool, _create_draft, he]
  · intro folder hf hfresh
    constructor
    · have hstate : (call_tool comp fresh s "create_draft" args).2.1
          = ⟨dictSet s.drafts fresh ⟨folder, pyGet args "width" (.num 1080),
              pyGet args "height" (.num 1920)⟩⟩ := by
        simp [call_tool, CAPCUT_AVAILABLE, dispatchTool, _create_draft, hf]
      rw [hstate]
      exact dictSet_of_not_mem s.drafts fresh _ hfresh
    · have h1 : (dispatchTool comp fresh s "create_draft" args).1
          = .ok (.dict [("success", .bool true), ("draft_id", .str fresh),
              ("draft_folder", folder), ("width", pyGet args "width" (.num 1080)),
              ("height", pyGet args "height" (.num 1920))]) := by
        simp [dispatchTool, _create_draft, hf]
      rw [call_tool_of_ok _ _ _ _ _ _ h1]
      rfl

/-- Witness for C8: both branches at concrete Composers on the empty
registry. -/
theorem create_draft_atomicity_witness :
    call_tool compBoom "W8" ⟨[]⟩ "create_draft" []
        = (excEnv (.raised "boom" "tb0"), (⟨[]⟩ : ServerState),
            [createCallOf "W8" []])
    ∧ (call_tool compOkFolder "V8" ⟨[]⟩ "create_draft" []).2.1.drafts
        = [] ++ [("V8", ⟨.str "folderF", pyGet [] "width" (.num 1080),
            pyGet [] "height" (.num 1920)⟩)] :=
  ⟨(create_draft_atomicity compBoom "W8" ⟨[]⟩ []).1 (.raised "boom" "tb0") rfl,
   ((create_draft_atomicity compOkFolder "V8" ⟨[]⟩ []).2 (.str "folderF") rfl
      (by simp)).1⟩

/-- Claim C10: the registry is mutated only by a successful
`create_draft`, which appends exactly one new entry under the fresh id;
every other `call_tool` invocation — any tool name, success or failure —
leaves the registry unchanged, and no existing entry is removed or
overwritten: every existing key's lookup is preserved by every call. -/
theorem registry_mutation_frame (comp : Comp) (fresh : String)
    (s : ServerState) (name : String) (args : PyDict)
    (hfresh : fresh ∉ s.drafts.map Prod.fst) :
    (name ≠ "create_draft" → (call_tool comp fresh s name args).2.1 = s)
    ∧ ((call_tool comp fresh s name args).2.1 = s
        ∨ ∃ sess, (call_tool comp fresh s name args).2.1.drafts
            = s.drafts ++ [(fresh, sess)])
    ∧ ∀ k ∈ s.drafts.map Prod.fst,
        List.lookup k (call_tool comp fresh s name args).2.1.drafts
          = List.lookup k s.drafts := by
  have hmain : (call_tool comp fresh s name args).2.1 = s
      ∨ ∃ sess, (call_tool comp fresh s name args).2.1.drafts
          = s.drafts ++ [(fresh, sess)] := by
    by_cases hn : name = "create_draft"
    · subst hn
      cases hc : comp (createCallOf fresh args) with
      | error e =>
          left
          simp [call_tool, CAPCUT_AVAILABLE, dispatchTool, _create_draft, hc]
      | ok folder =>
          right
          refine ⟨⟨folder, pyGet args "width" (.num 1080),
            pyGet args "height" (.num 1920)⟩, ?_⟩
          have hstate : (call_tool comp fresh s "create_draft" args).2.1
              = ⟨dictSet s.drafts fresh ⟨folder, pyGet args "width" (.num 1080),
                  pyGet args "height" (.num 1920)⟩⟩ := by
            simp [call_tool, CAPCUT_AVAILABLE, dispatchTool, _create_draft, hc]
          rw [hstate]
          exact dictSet_of_not_mem s.drafts fresh _ hfresh
    · exact Or.inl (call_tool_state_of_ne comp fresh s name args hn)
  refine ⟨fun hn => call_tool_state_of_ne comp fresh s name args hn, hmain, ?_⟩
  intro k hk
  rcases hmain with h | ⟨sess, h⟩
  · rw [h]
  · rw [h]
    exact lookup_append_of_mem s.drafts _ k hk

/-- Witness for C10: a successful `save_draft` on a one-entry registry
leaves the registry value unchanged. -/
theorem registry_mutation_frame_witness :
    (call_tool compOkFolder "Z0" sOne "save_draft"
      [("draft_id", .str "d")]).2.1 = sOne :=
  (registry_mutation_frame compOkFolder "Z0" sOne "save_draft"
    [("draft_id", .str "d")] (by decide)).1 (by decide)

/-- Claim C9, counterexample: on the unknown tool name `"foo"`, the stdio
adapter answers with a bare error object — no `success` field, produced
without calling `CapCutMCPServer.call_tool` — while the SSE adapter
serializes the `call_tool` envelope; the two serialized contents differ. -/
theorem adapters_diverge_on_unknown_tool :
    ((handle_call_tool compOkFolder "F1" ⟨[]⟩ "foo" (some [])).1.map
        TextContent.text)
      = ["\x7b\"error\": \"Unknown tool: foo\"\x7d"]
    ∧ ((sse_call_tool compOkFolder "F1" ⟨[]⟩ "foo" []).1.map TextContent.text)
      = ["\x7b\"success\": false, \"error\": \"Unknown tool: foo\"\x7d"]
    ∧ ("\x7b\"error\": \"Unknown tool: foo\"\x7d" : String)
      ≠ "\x7b\"success\": false, \"error\": \"Unknown tool: foo\"\x7d" :=
  ⟨rfl, rfl, by decide⟩

/-- Claim C9, amended: for each of the nine catalog tool names, with an
argument dict provided, the stdio handler and the SSE handler produce
identical response contents and states (both serialize the same
`CapCutMCPServer.call_tool` envelope); the adapters diverge on unknown
tool names, where stdio bypasses `call_tool` and omits the `success`
field. -/
theorem adapters_agree_on_catalog_tools (comp : Comp) (fresh : String)
    (s : ServerState) (args : PyDict) (name : String)
    (hname : name ∈ TOOLS.map ToolDecl.name) :
    handle_call_tool comp fresh s name (some args)
      = sse_call_tool comp fresh s name args := by
  have ha : argsOrEmpty (some args) = args := argsOrEmpty_some args
  fin_cases hname <;>
    simp [handle_call_tool, sse_call_tool, ha]

/-- Witness for the amended C9 at a concrete tool name. -/
theorem adapters_agree_on_catalog_tools_witness :
    handle_call_tool compOkFolder "W9" ⟨[]⟩ "create_draft" (some [])
      = sse_call_tool compOkFolder "W9" ⟨[]⟩ "create_draft" [] :=
  adapters_agree_on_catalog_tools compOkFolder "W9" ⟨[]⟩ [] "create_draft"
    (by decide)
